import Mathlib

/-!
Shallow embedding of the quotapilot gateway core (router, retry classifier,
budget manager, OpenAI-compatible adapter payload builder), translated from
the Python sources under `src/`, together with theorems settling the spec
claims C1 - C10.

Conventions of the embedding:
* Python `int` is modelled as `Int`; timestamps are integer seconds.
* Python `None` is modelled as `Option.none`; `x or 0` is `Option.getD x 0`.
* Python truthiness of an optional int (`None`/`0` falsy) is `opt_truthy`;
  of an optional bool (`None`/`False` falsy) is `opt_bool`; of an optional
  string (`None`/`""` falsy) is `truthy_str`.
* Exceptions are modelled as values; `raise` becomes a constructor of an
  outcome type; awaited I/O calls become explicit arguments (a usage-log
  list for the Mongo collection, a behavior function for an adapter).
-/

namespace QuotaPilot

/-! ## Retry classifier — `src/router/retry.py` -/

/-- A Python attribute value that may or may not be an `int`
(`isinstance(x, int)` in the source distinguishes the two). -/
inductive PyAttr where
  | int (n : Int)
  | other
deriving DecidableEq

/-- Embedded HTTP response carried by an exception (`exc.response`):
its `status_code` attribute (possibly absent or non-int) and its headers.
`httpx` response headers are case-insensitive, modelled by the
case-insensitive lookup `header_get`. -/
structure HttpResponse where
  status_code : Option PyAttr
  headers : List (String × String)
deriving DecidableEq

/-- An exception as seen by the retry classifier: the three attributes the
source reads via `getattr` (`status_code`, `response`, `retry_after`).
`retry_after := none` models an absent or `None` attribute; `some ""`
models a present but falsy value. -/
structure Exc where
  status_code : Option PyAttr
  response : Option HttpResponse
  retry_after : Option String
deriving DecidableEq

/-- ASCII lower-casing of a string, character by character. -/
def ascii_lower (s : String) : String :=
  String.mk (s.data.map Char.toLower)

/-- Case-insensitive header lookup (the behavior of `httpx.Headers.get`,
which the source calls on `resp.headers`). -/
def header_get (hs : List (String × String)) (k : String) : Option String :=
  (hs.find? (fun kv => ascii_lower kv.1 == ascii_lower k)).map (fun kv => kv.2)

/-- Python truthiness filter on an optional string (`if ra:`). -/
def truthy_str : Option String → Option String
  | none => none
  | some s => if s = "" then none else some s

/-- Python `a or b` on optional strings (first operand kept when truthy). -/
def py_or_str (a b : Option String) : Option String :=
  match truthy_str a with
  | some s => some s
  | none => b

/-- `_extract_status_code` (retry.py:9-19): a direct `status_code` attribute
if it is an int, else the embedded response's `status_code` if an int,
else `None`. -/
def extract_status_code (e : Exc) : Option Int :=
  match e.status_code with
  | some (.int n) => some n
  | _ =>
    match e.response with
    | some r =>
      match r.status_code with
      | some (.int n) => some n
      | _ => none
    | none => none

/-- `_extract_retry_after` (retry.py:22-34): a truthy `retry_after` attribute
first, else `headers.get("retry-after") or headers.get("Retry-After")`
when that is truthy, else `None`. -/
def extract_retry_after (e : Exc) : Option String :=
  match truthy_str e.retry_after with
  | some ra => some ra
  | none =>
    match e.response with
    | some r =>
      truthy_str (py_or_str (header_get r.headers "retry-after")
        (header_get r.headers "Retry-After"))
    | none => none

/-- `is_retryable` (retry.py:37-55): classify an exception into an action
together with the extracted status code and retry-after value. -/
def is_retryable (e : Exc) : String × Option Int × Option String :=
  let status_code := extract_status_code e
  let retry_after := extract_retry_after e
  if status_code = some 429 then
    ("retry_same", status_code, retry_after)
  else if status_code = some 502 ∨ status_code = some 503 ∨ status_code = some 504 then
    ("switch_provider", status_code, retry_after)
  else if status_code = some 400 ∨ status_code = some 401 ∨ status_code = some 403 ∨
      status_code = some 404 then
    ("no_retry", status_code, retry_after)
  else
    ("switch_provider", status_code, retry_after)

/-- The classification table of the spec (§4.1), as a function of the
extracted status code alone: 429, the gateway trio, the client quartet,
and a default for any other or absent status. -/
def action_of (sc : Option Int) : String :=
  if sc = some 429 then "retry_same"
  else if sc = some 502 ∨ sc = some 503 ∨ sc = some 504 then "switch_provider"
  else if sc = some 400 ∨ sc = some 401 ∨ sc = some 403 ∨ sc = some 404 then "no_retry"
  else "switch_provider"

/-! ## Backoff — `calculate_backoff` (retry.py:58-70) -/

/-- Whitespace accepted by Python `int(str)` before/after the digits. -/
def py_ws (c : Char) : Bool :=
  c = ' ' ∨ c = '\t' ∨ c = '\n' ∨ c = '\r' ∨ c = '\x0b' ∨ c = '\x0c'

/-- Digit run accumulator for the Python `int` literal grammar: digits with
single underscores allowed only between digits. -/
def py_digits_go (acc : Nat) : List Char → Option Nat
  | [] => some acc
  | '_' :: c :: cs =>
    if c.isDigit then py_digits_go (acc * 10 + (c.toNat - 48)) cs else none
  | [c] => if c.isDigit then some (acc * 10 + (c.toNat - 48)) else none
  | c :: c2 :: cs =>
    if c.isDigit then py_digits_go (acc * 10 + (c.toNat - 48)) (c2 :: cs) else none

/-- A nonempty digit run (underscore-separated) to its value. -/
def py_digits : List Char → Option Nat
  | [] => none
  | c :: cs => if c.isDigit then py_digits_go (c.toNat - 48) cs else none

/-- Model of Python `int(s)` for a string argument: optional surrounding
whitespace, optional sign, nonempty digit run. `none` models `ValueError`
(in particular every HTTP-date fails to parse). -/
def py_int_of_string (s : String) : Option Int :=
  let cs := ((s.data.dropWhile py_ws).reverse.dropWhile py_ws).reverse
  match cs with
  | '-' :: rest => (py_digits rest).map (fun n => -(n : Int))
  | '+' :: rest => (py_digits rest).map (fun n => (n : Int))
  | _ => (py_digits cs).map (fun n => (n : Int))

/-- The exponential fallback schedule `min(2, max(1, 2 ** (attempt - 1)))`.
`attempt` is 1-based. -/
def backoff_fallback (attempt : Nat) : Int :=
  min 2 (max 1 ((2 : Int) ^ (attempt - 1)))

/-- `calculate_backoff` (retry.py:58-70). The Python function returns a
float whose value is always an exact integer (`float(int(header))` or the
fallback schedule); it is modelled as that integer. A falsy header
(`None` or `""`) and an unparseable header both fall through to the
schedule. -/
def calculate_backoff (attempt : Nat) (retry_after_header : Option String) : Int :=
  match retry_after_header with
  | some s =>
    if s = "" then backoff_fallback attempt
    else
      match py_int_of_string s with
      | some k => k
      | none => backoff_fallback attempt
  | none => backoff_fallback attempt

/-! ## Model-hint parsing — `Router._parse_model_hint` (core.py:191-203) -/

/-- Split a character list at its first `':'`, returning the parts before
and after it; `none` when no colon occurs. This is Python
`s.split(":", 1)` restricted to the case `":" in s`. -/
def split_once_colon : List Char → Option (List Char × List Char)
  | [] => none
  | c :: cs =>
    if c = ':' then some ([], cs)
    else
      match split_once_colon cs with
      | some (a, b) => some (c :: a, b)
      | none => none

/-- `Router._parse_model_hint` (core.py:191-203): `""`/`"auto"` give
`(none, none)`; a string containing a colon is split once at the first
colon into `(provider_hint, model_hint)`; otherwise `(none, model)`. -/
def parse_model_hint (model_field : String) : Option String × Option String :=
  if model_field = "" ∨ model_field = "auto" then (none, none)
  else
    match split_once_colon model_field.data with
    | some (a, b) => (some (String.mk a), some (String.mk b))
    | none => (none, some model_field)

/-- Number of colons in a string's character list. -/
def count_colons (cs : List Char) : Nat := (cs.filter (fun c => c = ':')).length

/-- Modelled from the spec's words for claim C6 (spec §8, law 1), for
comparison with `parse_model_hint`: `(none,none)` on `""`/`"auto"`;
`(a,b)` exactly when the string has exactly one colon, split there;
`(none, s)` otherwise. -/
def claimed_parse_model_hint (s : String) : Option String × Option String :=
  if s = "" ∨ s = "auto" then (none, none)
  else if count_colons s.data = 1 then
    match split_once_colon s.data with
    | some (a, b) => (some (String.mk a), some (String.mk b))
    | none => (none, some s)
  else (none, some s)

/-! ## Budget manager — `src/state/budget.py` and `src/state/models.py` -/

/-- One usage row (`UsageLog` in models.py). `ts` is UTC seconds. -/
structure UsageLog where
  ts : Int
  provider : String
  model : String
  request_tokens : Int
  response_tokens : Int
  total_tokens : Int
  success : Bool
  error_code : Option Int
deriving DecidableEq

/-- `BudgetManager.record_usage` (budget.py:54-77): the document inserted
into the usage collection. Token arguments may be `None` and are coerced
with `or 0`; `total_tokens` is the sum of the two coerced values. The
insert itself is best-effort I/O and is modelled as returning the row. -/
def record_usage (provider model : String) (request_tokens response_tokens : Option Int)
    (success : Bool) (error_code : Option Int) (ts : Int) : UsageLog :=
  { ts := ts
    provider := provider
    model := model
    request_tokens := request_tokens.getD 0
    response_tokens := response_tokens.getD 0
    total_tokens := request_tokens.getD 0 + response_tokens.getD 0
    success := success
    error_code := error_code }

/-- Aggregated counters for one sliding window. -/
structure WindowStats where
  requests : Int
  tokens : Int

/-- `BudgetManager._aggregate_window` (budget.py:88-102): count the rows
and sum their `total_tokens` over `provider`, `model`, `ts >= start`.
The Mongo collection is modelled as the list of its rows. -/
def aggregate_window (store : List UsageLog) (provider model : String) (start : Int) :
    WindowStats :=
  let rows := store.filter (fun r =>
    r.provider == provider && r.model == model && decide (start ≤ r.ts))
  { requests := (rows.length : Int), tokens := (rows.map (fun r => r.total_tokens)).sum }

/-- The minute/day pair returned by `get_usage_stats`. -/
structure UsageStats where
  minute : WindowStats
  day : WindowStats

/-- `BudgetManager.get_usage_stats` (budget.py:79-86): the minute window is
`[now - 60, now]`, the day window `[now - 86400, now]` (24 hours), both
inclusive at the lower bound. -/
def get_usage_stats (store : List UsageLog) (provider model : String) (now : Int) :
    UsageStats :=
  { minute := aggregate_window store provider model (now - 60)
    day := aggregate_window store provider model (now - 86400) }

/-- The four optional caps extracted by `_get_limits`. -/
structure Limits where
  rpm : Option Int
  rpd : Option Int
  tpm : Option Int
  tpd : Option Int
deriving DecidableEq

/-- The YAML value found at `limits[provider][model]`:
`absent` covers a missing key and any falsy value (`None`, `{}`, `0`, `""`),
which fall through to the `default` entry; `nondict` is a truthy non-dict
value; `entry l` is a truthy dict with the extracted caps `l`. -/
inductive LimitEntry where
  | absent
  | nondict
  | entry (l : Limits)
deriving DecidableEq

/-- The configured limits table: `(provider, model-or-"default")` to the
raw value found there. -/
def LimitsTable : Type := String → String → LimitEntry

/-- `BudgetManager._get_limits` (budget.py:104-117): look up the model
entry, fall back to the provider's `default` entry when the model entry is
falsy, and return all-null caps when the result is not a dict. -/
def get_limits (tbl : LimitsTable) (provider model : String) : Limits :=
  match tbl provider model with
  | .entry l => l
  | .nondict => { rpm := none, rpd := none, tpm := none, tpd := none }
  | .absent =>
    match tbl provider "default" with
    | .entry l => l
    | _ => { rpm := none, rpd := none, tpm := none, tpd := none }

/-- Python truthiness of an optional int (`None` and `0` are falsy). -/
def opt_truthy (o : Option Int) : Bool :=
  match o with
  | none => false
  | some n => n != 0

/-- `any(limits.values())` over the four extracted caps (budget.py:127). -/
def any_limit (l : Limits) : Bool :=
  opt_truthy l.rpm || opt_truthy l.rpd || opt_truthy l.tpm || opt_truthy l.tpd

/-- `HeadroomResult` (budget.py:15-18): the verdict and the four remaining
fields (`none` mirrors a `None` entry of the `remaining` dict). -/
structure HeadroomResult where
  can_proceed : Bool
  rpm : Option Int
  rpd : Option Int
  tpm : Option Int
  tpd : Option Int
deriving DecidableEq

/-- The cap-evaluation block of `check_headroom` (budget.py:137-164):
sequentially evaluate each configured cap, clearing `can` on violation and
filling the remaining field with `max(0, cap - used)`. -/
def check_caps (limits : Limits) (minute day : WindowStats) (est_total : Int) :
    HeadroomResult :=
  let can0 := true
  let s1 : Bool × Option Int :=
    match limits.rpm with
    | none => (can0, none)
    | some rpm =>
      ((if minute.requests ≥ rpm then false else can0), some (max 0 (rpm - minute.requests)))
  let s2 : Bool × Option Int :=
    match limits.rpd with
    | none => (s1.1, none)
    | some rpd =>
      ((if day.requests ≥ rpd then false else s1.1), some (max 0 (rpd - day.requests)))
  let s3 : Bool × Option Int :=
    match limits.tpm with
    | none => (s2.1, none)
    | some tpm =>
      ((if minute.tokens + est_total > tpm then false else s2.1),
        some (max 0 (tpm - minute.tokens)))
  let s4 : Bool × Option Int :=
    match limits.tpd with
    | none => (s3.1, none)
    | some tpd =>
      ((if day.tokens + est_total > tpd then false else s3.1),
        some (max 0 (tpd - day.tokens)))
  { can_proceed := s4.1, rpm := s1.2, rpd := s2.2, tpm := s3.2, tpd := s4.2 }

/-- `BudgetManager.check_headroom` (budget.py:119-164): load the limits;
when no cap is truthy, allow with all-null remaining without touching the
store; otherwise aggregate the windows and evaluate each configured cap
with `est_total = (est_prompt or 0) + (est_completion or 0)`. -/
def check_headroom (tbl : LimitsTable) (store : List UsageLog) (now : Int)
    (provider model : String) (est_prompt_tokens est_completion_tokens : Option Int) :
    HeadroomResult :=
  let limits := get_limits tbl provider model
  if !any_limit limits then
    { can_proceed := true, rpm := none, rpd := none, tpm := none, tpd := none }
  else
    let stats := get_usage_stats store provider model now
    let est_total := est_prompt_tokens.getD 0 + est_completion_tokens.getD 0
    check_caps limits stats.minute stats.day est_total

/-- `estimate_tokens_from_request_text` (budget.py:167-169). -/
def estimate_tokens_from_request_text (text : String) : Int :=
  max 1 ((text.length : Int) / 4)

/-! ## Request schema and wire payload — `src/gateway/schemas.py` and
`src/providers/base_openai.py` -/

/-- An untyped JSON value, used for the passthrough fields the core never
inspects (`response_format`, `tools`, numeric parameters, ...). -/
inductive JsonVal where
  | null
  | b (x : Bool)
  | n (x : Int)
  | s (x : String)
  | arr (xs : List JsonVal)
  | obj (kvs : List (String × JsonVal))

/-- `ChatToolCall` (schemas.py:12-15). -/
structure ChatToolCall where
  id : Option String
  type : String
  function : JsonVal

/-- `ChatMessage` (schemas.py:5-9). -/
structure ChatMessage where
  role : String
  name : Option String
  content : Option String
  tool_calls : Option (List ChatToolCall)

/-- `ChatRequest` (schemas.py:18-37). Passthrough fields whose contents
the core never inspects are kept as `Option JsonVal`; `json` and `stream`
are optional booleans whose Python truthiness the code tests. -/
structure ChatRequest where
  model : String
  messages : List ChatMessage
  json : Option Bool
  tools : Option JsonVal
  tool_choice : Option JsonVal
  stream : Option Bool
  temperature : Option JsonVal
  max_tokens : Option JsonVal
  top_p : Option JsonVal
  frequency_penalty : Option JsonVal
  presence_penalty : Option JsonVal
  seed : Option JsonVal
  response_format : Option JsonVal
  n : Option JsonVal
  stop : Option JsonVal
  logprobs : Option Bool
  top_logprobs : Option JsonVal

/-- Python truthiness of an optional bool (`None` and `False` falsy). -/
def opt_bool (o : Option Bool) : Bool := o.getD false

/-- One conditional payload entry: `if x is not None: payload[k] = x`. -/
def opt_field (k : String) (v : Option JsonVal) : List (String × JsonVal) :=
  match v with
  | some x => [(k, x)]
  | none => []

/-- The wire form of one message (base_openai.py:99-109): `role`, `name`
when present, `content` (kept even when null), `tool_calls` when present. -/
def message_to_wire (m : ChatMessage) : JsonVal :=
  .obj ([("role", .s m.role)]
    ++ (match m.name with | some nm => [("name", .s nm)] | none => [])
    ++ [("content", match m.content with | some c => .s c | none => .null)]
    ++ (match m.tool_calls with
        | some tcs => [("tool_calls", .arr (tcs.map (fun tc =>
            .obj [("id", match tc.id with | some i => .s i | none => .null),
                  ("type", .s tc.type),
                  ("function", tc.function)])))]
        | none => []))

/-- The request payload built by `BaseOpenAIAdapter.chat`
(base_openai.py:111-135), as the ordered key/value list of the JSON dict.
`seed`, `n`, `logprobs` and `top_logprobs` are never written. -/
def build_payload (r : ChatRequest) : List (String × JsonVal) :=
  [("model", .s r.model),
   ("messages", .arr (r.messages.map message_to_wire)),
   ("stream", .b (opt_bool r.stream))]
  ++ (if opt_bool r.json then
        [("response_format", .obj [("type", .s "json_object")])]
      else [])
  ++ opt_field "temperature" r.temperature
  ++ opt_field "max_tokens" r.max_tokens
  ++ opt_field "top_p" r.top_p
  ++ opt_field "frequency_penalty" r.frequency_penalty
  ++ opt_field "presence_penalty" r.presence_penalty
  ++ opt_field "stop" r.stop
  ++ opt_field "tools" r.tools
  ++ opt_field "tool_choice" r.tool_choice
  ++ (match r.response_format with
      | some v => if opt_bool r.json then [] else [("response_format", v)]
      | none => [])

/-- Whether the payload dict has an entry for key `k`. -/
def has_key (p : List (String × JsonVal)) (k : String) : Bool :=
  p.any (fun kv => kv.1 == k)

/-- The payload dict's value at key `k` (first entry wins; the build never
writes a key twice). -/
def get_key (p : List (String × JsonVal)) (k : String) : Option JsonVal :=
  (p.find? (fun kv => kv.1 == k)).map (fun kv => kv.2)

/-! ## Router retry/failover phase — `Router.route_request` (core.py:33-123) -/

/-- The per-candidate request preparation (core.py:52-57):
`req = request.model and request or request.copy()`, then
`req.model = sp.model; req.stream = False`. The first component is the
request object handed to the provider; the second is the state of the
caller's original object after the assignments (they alias exactly when
`request.model` is truthy, i.e. non-empty). -/
def prepare_req (request : ChatRequest) (candidate_model : String) :
    ChatRequest × ChatRequest :=
  let req := { request with model := candidate_model, stream := some false }
  (req, if request.model = "" then request else req)

/-- The outcome of one `provider.chat` call: a normalized response's token
usage, or a raised exception. -/
inductive ChatOutcome where
  | ok (prompt_tokens completion_tokens : Int)
  | err (e : Exc)
deriving DecidableEq

/-- One candidate of the failover queue: provider name, model name, and the
provider's behavior on each 1-based attempt. -/
structure Candidate where
  name : String
  model : String
  behavior : Nat → ChatOutcome

/-- The arguments of one `budget.record_usage` call made by the router
(core.py:70-76 and 86-93). -/
structure AttemptRecord where
  provider : String
  model : String
  request_tokens : Int
  response_tokens : Int
  success : Bool
  error_code : Option Int
deriving DecidableEq

/-- The failed-attempt record (core.py:86-93): zero tokens,
`error_code = int(status_code or 0) if status_code is not None else None`,
which is the extracted status code itself. -/
def fail_record (c : Candidate) (e : Exc) : AttemptRecord :=
  { provider := c.name, model := c.model, request_tokens := 0, response_tokens := 0,
    success := false, error_code := extract_status_code e }

/-- The successful record (core.py:70-76): the response's token counts. -/
def success_record (c : Candidate) (p q : Int) : AttemptRecord :=
  { provider := c.name, model := c.model, request_tokens := p, response_tokens := q,
    success := true, error_code := none }

/-- Result of the up-to-two-attempt loop on one candidate
(core.py:60-119): a response, a bare re-raise (`no_retry`), or a move to
the next candidate carrying the last error. -/
inductive AttemptsResult where
  | success (prompt_tokens completion_tokens : Int)
  | fatal (e : Exc)
  | next (e : Exc)
deriving DecidableEq

/-- The attempt loop on one candidate, unrolled to its two iterations
(`while attempt < 2`, core.py:60-119). Attempt 1: on `retry_same` sleep
and retry; on `no_retry` re-raise; otherwise break. Attempt 2: the
`attempt < 2` guard fails, so `retry_same` falls through to the
`no_retry`/break tests. Every failed attempt appends a failure record,
every success a success record. -/
def run_candidate (c : Candidate) : AttemptsResult × List AttemptRecord :=
  match c.behavior 1 with
  | .ok p q => (.success p q, [success_record c p q])
  | .err e =>
    let row1 := fail_record c e
    if (is_retryable e).1 = "retry_same" then
      match c.behavior 2 with
      | .ok p q => (.success p q, [row1, success_record c p q])
      | .err e2 =>
        let row2 := fail_record c e2
        if (is_retryable e2).1 = "no_retry" then (.fatal e2, [row1, row2])
        else (.next e2, [row1, row2])
    else if (is_retryable e).1 = "no_retry" then (.fatal e, [row1])
    else (.next e, [row1])

/-- How `route_request` terminates: a response, the bare re-raise of an
upstream error (`no_retry` path), or `NoCapableProviderError`. -/
inductive RouteOutcome where
  | ok (provider model : String) (prompt_tokens completion_tokens : Int)
  | raise_original (e : Exc)
  | no_capable
deriving DecidableEq

/-- The failover walk over the deduplicated candidate queue
(core.py:51-123): run each candidate in order; a response or a `no_retry`
re-raise ends the walk; exhaustion raises `NoCapableProviderError`.
Also returns every usage record written along the way. -/
def route_phase5 : List Candidate → RouteOutcome × List AttemptRecord
  | [] => (.no_capable, [])
  | c :: rest =>
    match run_candidate c with
    | (.success p q, rows) => (.ok c.name c.model p q, rows)
    | (.fatal e, rows) => (.raise_original e, rows)
    | (.next _, rows) =>
      let r := route_phase5 rest
      (r.1, rows ++ r.2)

/-! ## Spec-side definitions used to state the claims -/

/-- Whether a character list contains a colon. -/
def has_colon (cs : List Char) : Bool := cs.any (fun c => c = ':')

/-- The per-cap verdict conjunction of claim C1 (spec §4.4): strict on
request counts, non-strict on tokens plus estimate, ignoring null caps. -/
def claimed_can_proceed (l : Limits) (minute day : WindowStats) (est_total : Int) : Bool :=
  (match l.rpm with | none => true | some c => decide (minute.requests < c))
  && (match l.rpd with | none => true | some c => decide (day.requests < c))
  && (match l.tpm with | none => true | some c => decide (minute.tokens + est_total ≤ c))
  && (match l.tpd with | none => true | some c => decide (day.tokens + est_total ≤ c))

/-- Claim C1 as stated, at one input: per-cap predicates and remaining
values for every configured (non-null) cap, and the fast path exactly when
every cap is null. -/
def c1_claim (tbl : LimitsTable) (store : List UsageLog) (now : Int) (p m : String)
    (ep ec : Option Int) : Prop :=
  (check_headroom tbl store now p m ep ec).can_proceed
      = claimed_can_proceed (get_limits tbl p m) (get_usage_stats store p m now).minute
        (get_usage_stats store p m now).day (ep.getD 0 + ec.getD 0)
  ∧ (check_headroom tbl store now p m ep ec).rpm
      = ((get_limits tbl p m).rpm).map
        (fun c => max 0 (c - (get_usage_stats store p m now).minute.requests))
  ∧ (check_headroom tbl store now p m ep ec).rpd
      = ((get_limits tbl p m).rpd).map
        (fun c => max 0 (c - (get_usage_stats store p m now).day.requests))
  ∧ (check_headroom tbl store now p m ep ec).tpm
      = ((get_limits tbl p m).tpm).map
        (fun c => max 0 (c - (get_usage_stats store p m now).minute.tokens))
  ∧ (check_headroom tbl store now p m ep ec).tpd
      = ((get_limits tbl p m).tpd).map
        (fun c => max 0 (c - (get_usage_stats store p m now).day.tokens))

/-- The pointwise order on remaining fields: shapes agree and a present
value never increases. -/
def opt_le (a b : Option Int) : Prop :=
  match a, b with
  | none, none => True
  | some x, some y => x ≤ y
  | _, _ => False

/-- Claim C4 as stated, at one request: every listed passthrough field is
in the wire payload exactly when non-null, and the `response_format`
override/passthrough rules hold. -/
def c4_claim (r : ChatRequest) : Prop :=
  has_key (build_payload r) "temperature" = r.temperature.isSome
  ∧ has_key (build_payload r) "top_p" = r.top_p.isSome
  ∧ has_key (build_payload r) "frequency_penalty" = r.frequency_penalty.isSome
  ∧ has_key (build_payload r) "presence_penalty" = r.presence_penalty.isSome
  ∧ has_key (build_payload r) "stop" = r.stop.isSome
  ∧ has_key (build_payload r) "seed" = r.seed.isSome
  ∧ has_key (build_payload r) "tool_choice" = r.tool_choice.isSome
  ∧ has_key (build_payload r) "n" = r.n.isSome
  ∧ has_key (build_payload r) "logprobs" = (r.logprobs.map JsonVal.b).isSome
  ∧ has_key (build_payload r) "top_logprobs" = r.top_logprobs.isSome
  ∧ has_key (build_payload r) "max_tokens" = r.max_tokens.isSome
  ∧ (opt_bool r.json = true →
      get_key (build_payload r) "response_format" = some (.obj [("type", .s "json_object")]))
  ∧ (opt_bool r.json = false → ∀ v, r.response_format = some v →
      get_key (build_payload r) "response_format" = some v)

/-! ## Concrete instances for counterexamples and witnesses -/

/-- A limits table with `rpm=2, tpm=100` for `P1/M1` (spec scenario S7). -/
def sample_tbl : LimitsTable := fun p m =>
  if p = "P1" ∧ m = "M1" then
    .entry { rpm := some 2, rpd := none, tpm := some 100, tpd := none }
  else .absent

/-- One recorded row: 40 request tokens at `ts = 100` for `P1/M1`. -/
def sample_row : UsageLog := record_usage "P1" "M1" (some 40) (some 0) true none 100

/-- A limits table whose `P1/M1` entry is found but has a lone zero cap. -/
def zero_cap_tbl : LimitsTable := fun p m =>
  if p = "P1" ∧ m = "M1" then
    .entry { rpm := some 0, rpd := none, tpm := none, tpd := none }
  else .absent

/-- A limits table whose `P1/M1` entry has `rpm=0` next to a nonzero cap. -/
def mixed_zero_tbl : LimitsTable := fun p m =>
  if p = "P1" ∧ m = "M1" then
    .entry { rpm := some 0, rpd := none, tpm := some 100, tpd := none }
  else .absent

/-- A 429 exception with a direct `retry_after` attribute. -/
def exc429 : Exc := { status_code := some (.int 429), response := none, retry_after := some "3" }

/-- A 400 exception with a bare int `status_code` attribute. -/
def exc400 : Exc := { status_code := some (.int 400), response := none, retry_after := none }

/-- A request whose every optional field is absent. -/
def base_request : ChatRequest :=
  { model := "auto", messages := [], json := some false, tools := none, tool_choice := none,
    stream := some true, temperature := none, max_tokens := none, top_p := none,
    frequency_penalty := none, presence_penalty := none, seed := none,
    response_format := none, n := none, stop := none, logprobs := some false,
    top_logprobs := none }

/-- `base_request` with a non-null `seed`. -/
def seeded_request : ChatRequest := { base_request with seed := some (.n 42) }

/-- `base_request` with `json = true` and a client `response_format`. -/
def json_request : ChatRequest :=
  { base_request with json := some true, response_format := some (.obj [("type", .s "text")]) }

/-- A 503 exception with a bare int `status_code` attribute. -/
def exc503 : Exc := { status_code := some (.int 503), response := none, retry_after := none }

/-- A candidate whose provider always raises a 400 (`no_retry`). -/
def fatal_cand : Candidate := { name := "p1", model := "m1", behavior := fun _ => .err exc400 }

/-- A candidate whose provider always raises a 503 (`switch_provider`). -/
def switch_cand : Candidate := { name := "p0", model := "m0", behavior := fun _ => .err exc503 }

/-! ## Helper lemmas about the budget manager -/

theorem check_caps_can (l : Limits) (mi d : WindowStats) (e : Int) :
    (check_caps l mi d e).can_proceed = claimed_can_proceed l mi d e := by
  cases hrpm : l.rpm <;> cases hrpd : l.rpd <;> cases htpm : l.tpm <;> cases htpd : l.tpd <;>
    simp only [check_caps, claimed_can_proceed, hrpm, hrpd, htpm, htpd] <;>
    (repeat' split) <;> simp_all

theorem check_caps_rpm (l : Limits) (mi d : WindowStats) (e : Int) :
    (check_caps l mi d e).rpm = l.rpm.map (fun c => max 0 (c - mi.requests)) := by
  cases hrpm : l.rpm <;>
    simp only [check_caps, hrpm, Option.map_some, Option.map_none] <;> rfl

theorem check_caps_rpd (l : Limits) (mi d : WindowStats) (e : Int) :
    (check_caps l mi d e).rpd = l.rpd.map (fun c => max 0 (c - d.requests)) := by
  cases hrpd : l.rpd <;>
    simp only [check_caps, hrpd, Option.map_some, Option.map_none] <;> rfl

theorem check_caps_tpm (l : Limits) (mi d : WindowStats) (e : Int) :
    (check_caps l mi d e).tpm = l.tpm.map (fun c => max 0 (c - mi.tokens)) := by
  cases htpm : l.tpm <;>
    simp only [check_caps, htpm, Option.map_some, Option.map_none] <;> rfl

theorem check_caps_tpd (l : Limits) (mi d : WindowStats) (e : Int) :
    (check_caps l mi d e).tpd = l.tpd.map (fun c => max 0 (c - d.tokens)) := by
  cases htpd : l.tpd <;>
    simp only [check_caps, htpd, Option.map_some, Option.map_none] <;> rfl

theorem check_headroom_fast (tbl : LimitsTable) (store : List UsageLog) (now : Int)
    (p m : String) (ep ec : Option Int) (h : any_limit (get_limits tbl p m) = false) :
    check_headroom tbl store now p m ep ec
      = { can_proceed := true, rpm := none, rpd := none, tpm := none, tpd := none } := by
  simp [check_headroom, h]

theorem check_headroom_slow (tbl : LimitsTable) (store : List UsageLog) (now : Int)
    (p m : String) (ep ec : Option Int) (h : any_limit (get_limits tbl p m) = true) :
    check_headroom tbl store now p m ep ec
      = check_caps (get_limits tbl p m) (get_usage_stats store p m now).minute
        (get_usage_stats store p m now).day (ep.getD 0 + ec.getD 0) := by
  simp [check_headroom, h]

theorem aggregate_requests_nonneg (store : List UsageLog) (p m : String) (start : Int) :
    0 ≤ (aggregate_window store p m start).requests := by
  simp [aggregate_window]

theorem aggregate_cons_le (store : List UsageLog) (p m : String) (start : Int)
    (row : UsageLog) (h : 0 ≤ row.total_tokens) :
    (aggregate_window store p m start).requests
        ≤ (aggregate_window (row :: store) p m start).requests
    ∧ (aggregate_window store p m start).tokens
        ≤ (aggregate_window (row :: store) p m start).tokens := by
  simp only [aggregate_window, List.filter_cons]
  split
  · constructor
    · simp only [List.length_cons]
      push_cast
      omega
    · simp only [List.map_cons, List.sum_cons]
      omega
  · exact ⟨le_refl _, le_refl _⟩

theorem claimed_can_proceed_mono (l : Limits) (mi d mi' d' : WindowStats) (e : Int)
    (h1 : mi.requests ≤ mi'.requests) (h2 : mi.tokens ≤ mi'.tokens)
    (h3 : d.requests ≤ d'.requests) (h4 : d.tokens ≤ d'.tokens) :
    claimed_can_proceed l mi' d' e = true → claimed_can_proceed l mi d e = true := by
  intro h
  cases hrpm : l.rpm <;> cases hrpd : l.rpd <;> cases htpm : l.tpm <;> cases htpd : l.tpd <;>
    simp_all [claimed_can_proceed] <;> omega

/-! ## Claim C1 — `check_headroom` cap evaluation -/

/-- C1, counterexample: with a found limits entry whose only configured cap
is `rpm = 0`, the claim's per-cap evaluation demands `can_proceed = false`
(`minute.requests < 0` fails) and `remaining.rpm = max(0, 0 - 0) = 0`, but
the code's falsy test `any(limits.values())` takes the no-limits fast path
and returns `can_proceed = true` with all-null remaining. -/
theorem c1_counterexample : ¬ c1_claim zero_cap_tbl [] 0 "P1" "M1" none none := by
  intro h
  exact absurd h.1 (by decide)

/-- C1 (amended): whenever at least one configured cap is nonzero,
`check_headroom` evaluates the caps exactly as the claim states (strict on
request counts, non-strict on tokens plus estimate, `remaining =
max(0, cap - used)` for non-null caps and null for null caps, with
`can_proceed` the conjunction of the configured predicates); whenever every
cap is null or zero — not only when every cap is null — it returns
`can_proceed = true` with all-null remaining, independently of the usage
store. -/
theorem c1_check_headroom_amended (tbl : LimitsTable) (store : List UsageLog) (now : Int)
    (p m : String) (ep ec : Option Int) :
    (any_limit (get_limits tbl p m) = true → c1_claim tbl store now p m ep ec)
    ∧ (any_limit (get_limits tbl p m) = false →
        check_headroom tbl store now p m ep ec
          = { can_proceed := true, rpm := none, rpd := none, tpm := none, tpd := none }) := by
  constructor
  · intro h
    refine ⟨?_, ?_, ?_, ?_, ?_⟩ <;>
      rw [check_headroom_slow tbl store now p m ep ec h]
    · rw [check_caps_can]
    · rw [check_caps_rpm]
    · rw [check_caps_rpd]
    · rw [check_caps_tpm]
    · rw [check_caps_tpd]
  · exact check_headroom_fast tbl store now p m ep ec

/-- C1, witness: scenario S7's table (`rpm=2, tpm=100`) with one recorded
row in the window. -/
theorem c1_witness :
    any_limit (get_limits sample_tbl "P1" "M1") = true
    ∧ c1_claim sample_tbl [sample_row] 130 "P1" "M1" (some 30) (some 20) :=
  ⟨by decide,
    (c1_check_headroom_amended sample_tbl [sample_row] 130 "P1" "M1" (some 30) (some 20)).1
      (by decide)⟩

/-! ## Claim C2 — retry classification and extraction -/

/-- C2: `is_retryable` returns the action determined solely by the
extracted status code via the table of §4.1 (429 retry_same; 502/503/504
switch_provider; 400/401/403/404 no_retry; anything else or absent
switch_provider), together with the extracted status and retry-after
values; the status comes from an int `status_code` attribute first, else
from the attached response; `retry_after` comes from a truthy direct
attribute first, else from the response's case-insensitively matched
`Retry-After` header. -/
theorem c2_retry_classifier (e : Exc) :
    is_retryable e
      = (action_of (extract_status_code e), extract_status_code e, extract_retry_after e)
    ∧ (∀ n, e.status_code = some (.int n) → extract_status_code e = some n)
    ∧ ((∀ n, e.status_code ≠ some (.int n)) →
        extract_status_code e
          = (match e.response with
            | some r => (match r.status_code with | some (.int n) => some n | _ => none)
            | none => none))
    ∧ (∀ ra, truthy_str e.retry_after = some ra → extract_retry_after e = some ra)
    ∧ (truthy_str e.retry_after = none →
        extract_retry_after e
          = (match e.response with
            | some r =>
              truthy_str (py_or_str (header_get r.headers "retry-after")
                (header_get r.headers "Retry-After"))
            | none => none)) := by
  refine ⟨?_, ?_, ?_, ?_, ?_⟩
  · simp only [is_retryable, action_of]
    split_ifs <;> rfl
  · intro n h
    simp [extract_status_code, h]
  · intro h
    cases hsc : e.status_code with
    | none => simp [extract_status_code, hsc]
    | some a =>
      cases a with
      | int n => exact absurd hsc (h n)
      | other => simp [extract_status_code, hsc]
  · intro ra h
    simp [extract_retry_after, h]
  · intro h
    simp [extract_retry_after, h]

/-- C2, witness: a 429 with a direct `retry_after = "3"` attribute. -/
theorem c2_witness :
    is_retryable exc429
      = (action_of (extract_status_code exc429), extract_status_code exc429,
          extract_retry_after exc429)
    ∧ (exc429.status_code = some (.int 429) ∧ extract_status_code exc429 = some 429)
    ∧ (truthy_str exc429.retry_after = some "3" ∧ extract_retry_after exc429 = some "3") :=
  ⟨(c2_retry_classifier exc429).1,
    ⟨rfl, (c2_retry_classifier exc429).2.1 429 rfl⟩,
    ⟨by decide, (c2_retry_classifier exc429).2.2.2.1 "3" (by decide)⟩⟩

/-! ## Claim C5 — backoff law -/

/-- C5: backoff uses an integer-parsing `retry_after` verbatim (for every
attempt number), and otherwise — including for every unparseable value
such as an HTTP-date — follows `min(2, max(1, 2^(n-1)))`, which is 1 for
attempt 1 and 2 for every later attempt. -/
theorem c5_backoff :
    (∀ n, calculate_backoff n (some "5") = 5)
    ∧ (∀ n s k, py_int_of_string s = some k → calculate_backoff n (some s) = k)
    ∧ (∀ n, 1 ≤ n →
        calculate_backoff n none = backoff_fallback n
        ∧ backoff_fallback n = if n = 1 then 1 else 2)
    ∧ (∀ n s, py_int_of_string s = none → calculate_backoff n (some s) = backoff_fallback n)
    ∧ py_int_of_string "Sun, 12 Oct 2025 07:28:00 GMT" = none := by
  have hfall : ∀ n, 1 ≤ n → backoff_fallback n = if n = 1 then 1 else 2 := by
    intro n h1
    match n, h1 with
    | 1, _ => decide
    | (k + 2), _ =>
      have h2 : (2 : Int) ≤ 2 ^ (k + 1) := by
        have hone : (1 : Int) ≤ 2 ^ k := one_le_pow₀ (by norm_num)
        calc (2 : Int) = 2 * 1 := by ring
          _ ≤ 2 * 2 ^ k := by linarith
          _ = 2 ^ (k + 1) := by ring
      have hne : ¬(k + 2 = 1) := by omega
      rw [if_neg hne]
      show min 2 (max 1 ((2 : Int) ^ (k + 1))) = 2
      rw [max_eq_right (le_trans (by norm_num) h2), min_eq_left h2]
  refine ⟨?_, ?_, ?_, ?_, by decide⟩
  · intro n
    simp only [calculate_backoff]
    rw [if_neg (by decide : ¬("5" : String) = "")]
    rw [(by decide : py_int_of_string "5" = some 5)]
  · intro n s k h
    have hs : ¬(s = "") := by
      intro he
      subst he
      rw [(by decide : py_int_of_string "" = none)] at h
      cases h
    simp only [calculate_backoff]
    rw [if_neg hs, h]
  · intro n h1
    exact ⟨rfl, hfall n h1⟩
  · intro n s h
    by_cases hs : s = ""
    · subst hs
      simp [calculate_backoff]
    · simp only [calculate_backoff]
      rw [if_neg hs, h]

/-- C5, witness: a parsed header at attempt 4, and attempt 2 of the
fallback schedule. -/
theorem c5_witness :
    py_int_of_string "7" = some 7
    ∧ calculate_backoff 4 (some "7") = 7
    ∧ (1 ≤ 2 ∧ calculate_backoff 2 none = backoff_fallback 2) :=
  ⟨by decide, c5_backoff.2.1 4 "7" 7 (by decide),
    by omega, (c5_backoff.2.2.1 2 (by omega)).1⟩

/-! ## Helper lemmas about strings and the split at the first colon -/

theorem string_data_inj {a b : String} (h : a.data = b.data) : a = b := by
  cases a
  cases b
  exact congrArg String.mk h

theorem string_append_data (a b : String) : (a ++ b).data = a.data ++ b.data := by
  cases a
  cases b
  rfl

theorem string_colon_data (a b : String) : (a ++ ":" ++ b).data = a.data ++ ':' :: b.data := by
  rw [string_append_data, string_append_data]
  simp [show (":" : String).data = [':'] from rfl]

theorem has_colon_false_iff (cs : List Char) : has_colon cs = false ↔ ':' ∉ cs := by
  simp only [has_colon, List.any_eq_false, decide_eq_true_eq]
  exact ⟨fun h hm => h ':' hm rfl, fun h x hx hxe => h (hxe ▸ hx)⟩

theorem split_once_colon_of_not_mem (cs : List Char) (h : ':' ∉ cs) :
    split_once_colon cs = none := by
  induction cs with
  | nil => rfl
  | cons c cs ih =>
    have hc : ¬(c = ':') := by
      intro hc
      exact h (hc ▸ List.mem_cons_self c cs)
    have hcs : ':' ∉ cs := fun hm => h (List.mem_cons_of_mem c hm)
    simp [split_once_colon, if_neg hc, ih hcs]

theorem split_once_colon_none_not_mem (cs : List Char) (h : split_once_colon cs = none) :
    ':' ∉ cs := by
  induction cs with
  | nil => simp
  | cons c cs ih =>
    by_cases hc : c = ':'
    · subst hc
      simp [split_once_colon] at h
    · simp only [split_once_colon, if_neg hc] at h
      cases hs : split_once_colon cs with
      | some ab => rw [hs] at h; cases h
      | none =>
        intro hm
        rcases List.mem_cons.mp hm with h1 | h2
        · exact hc h1.symm
        · exact ih hs h2

theorem split_once_colon_append (a b : List Char) (h : ':' ∉ a) :
    split_once_colon (a ++ ':' :: b) = some (a, b) := by
  induction a with
  | nil => simp [split_once_colon]
  | cons x a ih =>
    have hx : ¬(x = ':') := by
      intro hx
      exact h (hx ▸ List.mem_cons_self x a)
    have ha : ':' ∉ a := fun hm => h (List.mem_cons_of_mem x hm)
    simp [split_once_colon, if_neg hx, ih ha]

theorem split_once_colon_some_inv (cs : List Char) :
    ∀ a b, split_once_colon cs = some (a, b) → cs = a ++ ':' :: b ∧ ':' ∉ a := by
  induction cs with
  | nil => intro a b h; cases h
  | cons c cs ih =>
    intro a b h
    by_cases hc : c = ':'
    · subst hc
      simp only [split_once_colon, if_pos rfl, Option.some_inj] at h
      rcases h with ⟨rfl, rfl⟩
      simp
    · simp only [split_once_colon, if_neg hc] at h
      cases hs : split_once_colon cs with
      | none => rw [hs] at h; cases h
      | some ab =>
        rcases ab with ⟨a', b'⟩
        rw [hs] at h
        injection h with h'
        rcases Prod.mk.injEq .. ▸ h' with h''
        have ha : a = c :: a' := by
          have := congrArg Prod.fst h'
          simpa using this.symm
        have hb : b = b' := by
          have := congrArg Prod.snd h'
          simpa using this.symm
        subst ha
        subst hb
        rcases ih a' b hs with ⟨hcs, hna⟩
        constructor
        · rw [hcs]; rfl
        · intro hm
          rcases List.mem_cons.mp hm with h1 | h2
          · exact hc h1.symm
          · exact hna h2

/-! ## Claim C6 — model-hint parsing -/

/-- C6, counterexample: on `"a:b:c"` (two colons) the claim's reading
demands `(none, "a:b:c")`, but the code splits once at the first colon and
returns `("a", "b:c")`. -/
theorem c6_counterexample :
    parse_model_hint "a:b:c" ≠ claimed_parse_model_hint "a:b:c" := by decide

/-- C6 (amended): `parse` returns `(none, none)` iff the input is `""` or
`"auto"`; it returns `(a, b)` iff the input is `a ++ ":" ++ b` with `a`
colon-free — i.e. it splits at the FIRST colon, regardless of how many
colons follow — and `(none, s)` for any other input without a colon. -/
theorem c6_parse_model_hint_amended (s : String) :
    (parse_model_hint s = (none, none) ↔ (s = "" ∨ s = "auto"))
    ∧ (∀ a b : String, parse_model_hint s = (some a, some b) ↔
        (s = a ++ ":" ++ b ∧ has_colon a.data = false))
    ∧ (¬(s = "" ∨ s = "auto") → has_colon s.data = false → parse_model_hint s = (none, some s)) := by
  by_cases hs0 : s = "" ∨ s = "auto"
  · refine ⟨by simp [parse_model_hint, hs0], ?_, fun h _ => absurd hs0 h⟩
    intro a b
    simp only [parse_model_hint, if_pos hs0]
    constructor
    · intro h
      cases h
    · rintro ⟨rfl, _⟩
      rcases hs0 with h | h
      · have := congrArg String.data h
        rw [string_colon_data] at this
        simp at this
      · have := congrArg String.data h
        rw [string_colon_data] at this
        have hmem : ':' ∈ ("auto" : String).data := by
          rw [← this]
          simp
        exact absurd hmem (by decide)
  · have hif : parse_model_hint s
        = (match split_once_colon s.data with
          | some (a, b) => (some (String.mk a), some (String.mk b))
          | none => (none, some s)) := by
      simp [parse_model_hint, hs0]
    refine ⟨?_, ?_, ?_⟩
    · rw [hif]
      cases hsp : split_once_colon s.data with
      | none => simp [hs0]
      | some ab => rcases ab with ⟨da, db⟩; simp [hs0]
    · intro a b
      rw [hif]
      cases hsp : split_once_colon s.data with
      | none =>
        simp only []
        constructor
        · intro h
          cases h
        · rintro ⟨rfl, _⟩
          have := split_once_colon_none_not_mem _ hsp
          rw [string_colon_data] at this
          simp at this
      | some ab =>
        rcases ab with ⟨da, db⟩
        simp only [Prod.mk.injEq, Option.some_inj]
        constructor
        · rintro ⟨rfl, rfl⟩
          rcases split_once_colon_some_inv s.data da db hsp with ⟨hdata, hna⟩
          constructor
          · apply string_data_inj
            rw [string_colon_data, hdata]
          · exact (has_colon_false_iff _).mpr hna
        · rintro ⟨rfl, hcolfree⟩
          have hna : ':' ∉ a.data := (has_colon_false_iff _).mp hcolfree
          have := split_once_colon_append a.data b.data hna
          rw [string_colon_data] at hsp
          rw [this] at hsp
          injection hsp with h'
          have h1 : da = a.data := by
            have := congrArg Prod.fst h'
            exact (by simpa using this : a.data = da).symm
          have h2 : db = b.data := by
            have := congrArg Prod.snd h'
            exact (by simpa using this : b.data = db).symm
          subst h1
          subst h2
          exact ⟨string_data_inj rfl, string_data_inj rfl⟩
    · intro _ hnc
      rw [hif, split_once_colon_of_not_mem _ ((has_colon_false_iff _).mp hnc)]

/-- C6, witness: a plain model name without a colon. -/
theorem c6_witness :
    ¬(("m" : String) = "" ∨ ("m" : String) = "auto")
    ∧ has_colon ("m" : String).data = false
    ∧ parse_model_hint "m" = (none, some "m") :=
  ⟨by decide, by decide,
    (c6_parse_model_hint_amended "m").2.2 (by decide) (by decide)⟩

/-! ## Claim C8 — headroom monotone in recorded usage -/

/-- C8: for fixed limits, estimates and query instant, inserting one usage
row (with the nonnegative `total_tokens` every router-written row has)
never increases any non-null remaining value and never flips `can_proceed`
from false to true; remaining fields keep their null/non-null shape. -/
theorem c8_headroom_monotone (tbl : LimitsTable) (store : List UsageLog) (now : Int)
    (p m : String) (ep ec : Option Int) (row : UsageLog) (hrow : 0 ≤ row.total_tokens) :
    ((check_headroom tbl (row :: store) now p m ep ec).can_proceed = true →
      (check_headroom tbl store now p m ep ec).can_proceed = true)
    ∧ opt_le (check_headroom tbl (row :: store) now p m ep ec).rpm
        (check_headroom tbl store now p m ep ec).rpm
    ∧ opt_le (check_headroom tbl (row :: store) now p m ep ec).rpd
        (check_headroom tbl store now p m ep ec).rpd
    ∧ opt_le (check_headroom tbl (row :: store) now p m ep ec).tpm
        (check_headroom tbl store now p m ep ec).tpm
    ∧ opt_le (check_headroom tbl (row :: store) now p m ep ec).tpd
        (check_headroom tbl store now p m ep ec).tpd := by
  have hmin := aggregate_cons_le store p m (now - 60) row hrow
  have hday := aggregate_cons_le store p m (now - 86400) row hrow
  by_cases ha : any_limit (get_limits tbl p m) = true
  · rw [check_headroom_slow tbl store now p m ep ec ha,
      check_headroom_slow tbl (row :: store) now p m ep ec ha]
    refine ⟨?_, ?_, ?_, ?_, ?_⟩
    · rw [check_caps_can, check_caps_can]
      exact claimed_can_proceed_mono _ _ _ _ _ _ hmin.1 hmin.2 hday.1 hday.2
    · rw [check_caps_rpm, check_caps_rpm]
      cases h : (get_limits tbl p m).rpm with
      | none => simp [opt_le]
      | some c =>
        simp only [Option.map_some, opt_le]
        exact max_le_max (le_refl 0) (sub_le_sub_left hmin.1 c)
    · rw [check_caps_rpd, check_caps_rpd]
      cases h : (get_limits tbl p m).rpd with
      | none => simp [opt_le]
      | some c =>
        simp only [Option.map_some, opt_le]
        exact max_le_max (le_refl 0) (sub_le_sub_left hday.1 c)
    · rw [check_caps_tpm, check_caps_tpm]
      cases h : (get_limits tbl p m).tpm with
      | none => simp [opt_le]
      | some c =>
        simp only [Option.map_some, opt_le]
        exact max_le_max (le_refl 0) (sub_le_sub_left hmin.2 c)
    · rw [check_caps_tpd, check_caps_tpd]
      cases h : (get_limits tbl p m).tpd with
      | none => simp [opt_le]
      | some c =>
        simp only [Option.map_some, opt_le]
        exact max_le_max (le_refl 0) (sub_le_sub_left hday.2 c)
  · have ha' : any_limit (get_limits tbl p m) = false := by
      cases h : any_limit (get_limits tbl p m)
      · rfl
      · exact absurd h ha
    rw [check_headroom_fast tbl store now p m ep ec ha',
      check_headroom_fast tbl (row :: store) now p m ep ec ha']
    simp [opt_le]

/-- C8, witness: adding the sample row to an empty store under the S7
limits. -/
theorem c8_witness :
    0 ≤ sample_row.total_tokens
    ∧ ((check_headroom sample_tbl (sample_row :: []) 130 "P1" "M1" (some 30)
          (some 20)).can_proceed = true →
        (check_headroom sample_tbl [] 130 "P1" "M1" (some 30) (some 20)).can_proceed = true) :=
  ⟨by decide,
    (c8_headroom_monotone sample_tbl [] 130 "P1" "M1" (some 30) (some 20) sample_row
      (by decide)).1⟩

/-! ## Claim C9 — usage rows' token totals -/

/-- C9: every row built by `record_usage` satisfies
`total_tokens = request_tokens + response_tokens`, with null token
arguments coerced to 0, for successful and failed attempts alike. -/
theorem c9_usage_totals (provider model : String) (rt rsp : Option Int) (success : Bool)
    (ec : Option Int) (ts : Int) :
    (record_usage provider model rt rsp success ec ts).total_tokens
      = (record_usage provider model rt rsp success ec ts).request_tokens
        + (record_usage provider model rt rsp success ec ts).response_tokens
    ∧ (record_usage provider model rt rsp success ec ts).request_tokens = rt.getD 0
    ∧ (record_usage provider model rt rsp success ec ts).response_tokens = rsp.getD 0 :=
  ⟨rfl, rfl, rfl⟩

/-! ## Claim C10 — zero caps take the no-limits fast path -/

/-- C10: when a limits entry is found for `(provider, model)` but every cap
in it is falsy (null or zero), `check_headroom` takes the no-limits fast
path: `can_proceed = true`, all-null remaining, for every store state. A
zero cap does take effect when some other cap of the entry is nonzero: a
zero `rpm` then forces `can_proceed = false` with `remaining.rpm = 0`. -/
theorem c10_zero_caps_fast_path (tbl : LimitsTable) (store : List UsageLog) (now : Int)
    (p m : String) (ep ec : Option Int) (l : Limits) (hfound : tbl p m = .entry l) :
    (opt_truthy l.rpm = false → opt_truthy l.rpd = false → opt_truthy l.tpm = false →
      opt_truthy l.tpd = false →
      check_headroom tbl store now p m ep ec
        = { can_proceed := true, rpm := none, rpd := none, tpm := none, tpd := none })
    ∧ (any_limit l = true → l.rpm = some 0 →
        (check_headroom tbl store now p m ep ec).can_proceed = false
        ∧ (check_headroom tbl store now p m ep ec).rpm = some 0) := by
  have hl : get_limits tbl p m = l := by simp [get_limits, hfound]
  constructor
  · intro h1 h2 h3 h4
    apply check_headroom_fast
    rw [hl]
    simp [any_limit, h1, h2, h3, h4]
  · intro ha hrpm
    have hs := check_headroom_slow tbl store now p m ep ec (by rw [hl]; exact ha)
    have hreq : 0 ≤ (get_usage_stats store p m now).minute.requests :=
      aggregate_requests_nonneg store p m (now - 60)
    constructor
    · rw [hs, check_caps_can, hl]
      simp only [claimed_can_proceed, hrpm]
      have : ¬((get_usage_stats store p m now).minute.requests < 0) := by omega
      simp [this]
    · rw [hs, check_caps_rpm, hl, hrpm]
      have hmax : max 0 ((0 : Int) - (get_usage_stats store p m now).minute.requests) = 0 := by
        omega
      simp [hmax]
      exact hreq

/-- C10, witness: a lone zero `rpm` cap is skipped entirely; next to a
nonzero `tpm` it blocks every request. -/
theorem c10_witness :
    zero_cap_tbl "P1" "M1" = .entry { rpm := some 0, rpd := none, tpm := none, tpd := none }
    ∧ check_headroom zero_cap_tbl [sample_row] 130 "P1" "M1" (some 30) (some 20)
        = { can_proceed := true, rpm := none, rpd := none, tpm := none, tpd := none }
    ∧ ((check_headroom mixed_zero_tbl [] 0 "P1" "M1" none none).can_proceed = false
        ∧ (check_headroom mixed_zero_tbl [] 0 "P1" "M1" none none).rpm = some 0) :=
  ⟨by decide,
    (c10_zero_caps_fast_path zero_cap_tbl [sample_row] 130 "P1" "M1" (some 30) (some 20)
      { rpm := some 0, rpd := none, tpm := none, tpd := none } (by decide)).1
      (by decide) (by decide) (by decide) (by decide),
    (c10_zero_caps_fast_path mixed_zero_tbl [] 0 "P1" "M1" none none
      { rpm := some 0, rpd := none, tpm := some 100, tpd := none } (by decide)).2
      (by decide) (by decide)⟩

/-! ## Helper lemma about the per-candidate attempt loop -/

theorem run_candidate_fatal (c : Candidate) (e : Exc) (rows : List AttemptRecord)
    (h : run_candidate c = (.fatal e, rows)) :
    (is_retryable e).1 = "no_retry"
    ∧ (c.behavior 1 = .err e ∨ c.behavior 2 = .err e)
    ∧ fail_record c e ∈ rows := by
  cases hb1 : c.behavior 1 with
  | ok p q => simp [run_candidate, hb1] at h
  | err e1 =>
    simp only [run_candidate, hb1] at h
    by_cases hr : (is_retryable e1).1 = "retry_same"
    · rw [if_pos hr] at h
      cases hb2 : c.behavior 2 with
      | ok p q => simp [hb2] at h
      | err e2 =>
        simp only [hb2] at h
        by_cases hn : (is_retryable e2).1 = "no_retry"
        · rw [if_pos hn] at h
          rw [Prod.mk.injEq] at h
          obtain ⟨h1, h2⟩ := h
          injection h1 with he
          subst he
          subst h2
          exact ⟨hn, Or.inr rfl, by simp⟩
        · rw [if_neg hn] at h
          simp at h
    · rw [if_neg hr] at h
      by_cases hn : (is_retryable e1).1 = "no_retry"
      · rw [if_pos hn] at h
        rw [Prod.mk.injEq] at h
        obtain ⟨h1, h2⟩ := h
        injection h1 with he
        subst he
        subst h2
        exact ⟨hn, Or.inl rfl, by simp⟩
      · rw [if_neg hn] at h
        simp at h

theorem route_phase5_raise_inv (queue : List Candidate) (e : Exc)
    (h : (route_phase5 queue).1 = .raise_original e) :
    (is_retryable e).1 = "no_retry"
    ∧ ∃ c ∈ queue, (c.behavior 1 = .err e ∨ c.behavior 2 = .err e)
        ∧ fail_record c e ∈ (route_phase5 queue).2 := by
  induction queue with
  | nil => cases h
  | cons c rest ih =>
    rcases hrc : run_candidate c with ⟨res, rows⟩
    cases res with
    | success p q =>
      have hroute : route_phase5 (c :: rest) = (.ok c.name c.model p q, rows) := by
        simp [route_phase5, hrc]
      rw [hroute] at h
      cases h
    | fatal e0 =>
      have hroute : route_phase5 (c :: rest) = (.raise_original e0, rows) := by
        simp [route_phase5, hrc]
      rw [hroute] at h
      injection h with he
      subst he
      rcases run_candidate_fatal c e0 rows hrc with ⟨h1, h2, h3⟩
      exact ⟨h1, c, List.mem_cons_self c rest, h2, by rw [hroute]; exact h3⟩
    | next e0 =>
      have hroute : route_phase5 (c :: rest)
          = ((route_phase5 rest).1, rows ++ (route_phase5 rest).2) := by
        simp [route_phase5, hrc]
      rw [hroute] at h
      rcases ih h with ⟨h1, c', hc', h2, h3⟩
      refine ⟨h1, c', List.mem_cons_of_mem c hc', h2, ?_⟩
      rw [hroute]
      exact List.mem_append_right rows h3

theorem route_phase5_reaches_fatal (pre : List Candidate) (c : Candidate)
    (rest : List Candidate) (e : Exc)
    (hpre : ∀ c' ∈ pre, ∃ e', (run_candidate c').1 = .next e')
    (hc : (run_candidate c).1 = .fatal e) :
    (route_phase5 (pre ++ c :: rest)).1 = .raise_original e
    ∧ fail_record c e ∈ (route_phase5 (pre ++ c :: rest)).2 := by
  induction pre with
  | nil =>
    rcases hrc : run_candidate c with ⟨res, rows⟩
    rw [hrc] at hc
    simp only [] at hc
    subst hc
    have h3 := run_candidate_fatal c e rows hrc
    constructor
    · show (route_phase5 (c :: rest)).1 = _
      simp [route_phase5, hrc]
    · show fail_record c e ∈ (route_phase5 (c :: rest)).2
      simp only [route_phase5, hrc]
      exact h3.2.2
  | cons p pre ih =>
    obtain ⟨e', he'⟩ := hpre p (List.mem_cons_self p pre)
    rcases hrp : run_candidate p with ⟨resp, rowsp⟩
    rw [hrp] at he'
    simp only [] at he'
    subst he'
    have hrest := ih (fun c' hc' => hpre c' (List.mem_cons_of_mem p hc'))
    constructor
    · show (route_phase5 (p :: (pre ++ c :: rest))).1 = _
      simp [route_phase5, hrp, hrest.1]
    · show fail_record c e ∈ (route_phase5 (p :: (pre ++ c :: rest))).2
      simp only [route_phase5, hrp, List.mem_append]
      exact Or.inr hrest.2

theorem route_phase5_exhausted (queue : List Candidate)
    (h : ∀ c' ∈ queue, ∃ e', (run_candidate c').1 = .next e') :
    (route_phase5 queue).1 = .no_capable := by
  induction queue with
  | nil => rfl
  | cons c rest ih =>
    obtain ⟨e', he'⟩ := h c (List.mem_cons_self c rest)
    rcases hrc : run_candidate c with ⟨res, rows⟩
    rw [hrc] at he'
    simp only [] at he'
    subst he'
    simp [route_phase5, hrc, ih (fun c' hc' => h c' (List.mem_cons_of_mem c hc'))]

/-! ## Claim C7 — error propagation policy of the failover walk -/

/-- C7, both directions. Forward: an attempt error the classifier marks
`no_retry` makes the candidate's loop terminate fatally with the failed
row recorded (at attempt 1, and at attempt 2 after a `retry_same` first
error); when the walk reaches that candidate (every earlier candidate
failed over), the walk re-raises that very error object — for ANY list
of remaining candidates, so it is neither failed over nor collapsed into
`NoCapableProviderError`. Exhaustion: if every candidate fails over, the
walk raises `NoCapableProviderError`. Converse: every re-raise is of an
unchanged attempt error classified `no_retry`, with its failed row
recorded. -/
theorem c7_no_retry_propagation :
    (∀ (c : Candidate) (e : Exc), c.behavior 1 = .err e → (is_retryable e).1 = "no_retry" →
        run_candidate c = (.fatal e, [fail_record c e]))
    ∧ (∀ (c : Candidate) (e1 e2 : Exc), c.behavior 1 = .err e1 →
        (is_retryable e1).1 = "retry_same" → c.behavior 2 = .err e2 →
        (is_retryable e2).1 = "no_retry" →
        run_candidate c = (.fatal e2, [fail_record c e1, fail_record c e2]))
    ∧ (∀ (pre : List Candidate) (c : Candidate) (rest : List Candidate) (e : Exc),
        (∀ c' ∈ pre, ∃ e', (run_candidate c').1 = .next e') →
        (run_candidate c).1 = .fatal e →
        (route_phase5 (pre ++ c :: rest)).1 = .raise_original e
        ∧ fail_record c e ∈ (route_phase5 (pre ++ c :: rest)).2)
    ∧ (∀ queue : List Candidate, (∀ c' ∈ queue, ∃ e', (run_candidate c').1 = .next e') →
        (route_phase5 queue).1 = .no_capable)
    ∧ (∀ (queue : List Candidate) (e : Exc), (route_phase5 queue).1 = .raise_original e →
        (is_retryable e).1 = "no_retry"
        ∧ ∃ c ∈ queue, (c.behavior 1 = .err e ∨ c.behavior 2 = .err e)
            ∧ fail_record c e ∈ (route_phase5 queue).2) := by
  refine ⟨?_, ?_,
    fun pre c rest e hpre hc => route_phase5_reaches_fatal pre c rest e hpre hc,
    fun queue h => route_phase5_exhausted queue h,
    fun queue e h => route_phase5_raise_inv queue e h⟩
  · intro c e hb hn
    simp [run_candidate, hb, hn]
  · intro c e1 e2 hb1 hr hb2 hn
    simp [run_candidate, hb1, hr, hb2, hn]

/-- C7, witness: a 400-raising candidate preceded by a 503-raising
(fail-over) candidate; the 400 is re-raised through the walk with its
failed row recorded. -/
theorem c7_witness :
    (fatal_cand.behavior 1 = .err exc400
      ∧ (is_retryable exc400).1 = "no_retry"
      ∧ run_candidate fatal_cand = (.fatal exc400, [fail_record fatal_cand exc400]))
    ∧ (∀ c' ∈ [switch_cand], ∃ e', (run_candidate c').1 = .next e')
    ∧ (run_candidate fatal_cand).1 = .fatal exc400
    ∧ (route_phase5 [switch_cand, fatal_cand]).1 = .raise_original exc400
    ∧ fail_record fatal_cand exc400 ∈ (route_phase5 [switch_cand, fatal_cand]).2 := by
  have hpre : ∀ c' ∈ [switch_cand], ∃ e', (run_candidate c').1 = .next e' := by
    intro c' hc'
    rw [List.mem_singleton] at hc'
    subst hc'
    exact ⟨exc503, by decide⟩
  refine ⟨⟨rfl, by decide, c7_no_retry_propagation.1 fatal_cand exc400 rfl (by decide)⟩,
    hpre, by decide, ?_, ?_⟩
  · exact (c7_no_retry_propagation.2.2.1 [switch_cand] fatal_cand [] exc400 hpre (by decide)).1
  · exact (c7_no_retry_propagation.2.2.1 [switch_cand] fatal_cand [] exc400 hpre (by decide)).2

/-! ## Helper lemmas about payload key lookup -/

theorem has_key_append (xs ys : List (String × JsonVal)) (k : String) :
    has_key (xs ++ ys) k = (has_key xs k || has_key ys k) := by
  simp [has_key]

theorem has_key_opt_field_self (k : String) (v : Option JsonVal) :
    has_key (opt_field k v) k = v.isSome := by
  cases v <;> simp [opt_field, has_key]

theorem has_key_opt_field_ne (k k' : String) (v : Option JsonVal) (h : ¬(k = k')) :
    has_key (opt_field k v) k' = false := by
  cases v <;> simp [opt_field, has_key, h]

theorem get_key_append (xs ys : List (String × JsonVal)) (k : String) :
    get_key (xs ++ ys) k = (get_key xs k).or (get_key ys k) := by
  simp only [get_key, List.find?_append]
  cases List.find? (fun kv => kv.1 == k) xs <;> simp

theorem get_key_opt_field_ne (k k' : String) (v : Option JsonVal) (h : ¬(k = k')) :
    get_key (opt_field k v) k' = none := by
  cases v <;> simp [opt_field, get_key, h]

/-! ## Claim C4 — the OpenAI-compatible wire payload -/

/-- C4, counterexample: a request with `seed = 42` has no `seed` key in
the wire payload — `BaseOpenAIAdapter.chat` never writes `seed` (nor `n`,
`logprobs`, `top_logprobs`) — while the claim demands inclusion of every
listed non-null field. -/
theorem c4_counterexample : ¬ c4_claim seeded_request := by
  intro h
  exact absurd h.2.2.2.2.2.1 (by decide)

/-- C4 (amended): `temperature`, `top_p`, the two penalties, `stop`,
`tool_choice` and `max_tokens` are in the payload exactly when non-null,
but `seed`, `n`, `logprobs` and `top_logprobs` are never included; when
`request.json` is truthy the payload's `response_format` is
`{"type":"json_object"}` regardless of any client-supplied value, and
otherwise the client `response_format` is passed through verbatim. -/
theorem has_key_opt_field (k k' : String) (v : Option JsonVal) :
    has_key (opt_field k v) k' = ((k == k') && v.isSome) := by
  cases v <;> simp [opt_field, has_key]

theorem has_key_build (r : ChatRequest) (k : String) :
    has_key (build_payload r) k =
      (has_key [("model", JsonVal.s r.model),
          ("messages", JsonVal.arr (r.messages.map message_to_wire)),
          ("stream", JsonVal.b (opt_bool r.stream))] k
        || (opt_bool r.json && ("response_format" == k))
        || (("temperature" == k) && r.temperature.isSome)
        || (("max_tokens" == k) && r.max_tokens.isSome)
        || (("top_p" == k) && r.top_p.isSome)
        || (("frequency_penalty" == k) && r.frequency_penalty.isSome)
        || (("presence_penalty" == k) && r.presence_penalty.isSome)
        || (("stop" == k) && r.stop.isSome)
        || (("tools" == k) && r.tools.isSome)
        || (("tool_choice" == k) && r.tool_choice.isSome)
        || (r.response_format.isSome && !opt_bool r.json && ("response_format" == k))) := by
  by_cases hj : opt_bool r.json <;>
    cases hrf : r.response_format <;>
    simp only [build_payload, has_key_append, has_key_opt_field, hj, hrf, if_pos, if_neg,
      Bool.true_and, Bool.false_and, Bool.and_true, Bool.and_false, Bool.or_false,
      Bool.false_or, Bool.not_true, Bool.not_false, Option.isSome_some, Option.isSome_none,
      if_true, if_false] <;>
    simp [has_key, Bool.or_assoc, Bool.or_comm, Bool.or_left_comm]

theorem get_key_nil (k : String) : get_key [] k = none := rfl

theorem get_key_cons_self (k : String) (v : JsonVal) (rest : List (String × JsonVal)) :
    get_key ((k, v) :: rest) k = some v := by
  simp [get_key]

theorem get_key_cons_ne (k' k : String) (v : JsonVal) (rest : List (String × JsonVal))
    (h : ¬(k' = k)) : get_key ((k', v) :: rest) k = get_key rest k := by
  have hb : (k' == k) = false := by simpa using h
  simp [get_key, List.find?, hb]

theorem get_key_build_rf (r : ChatRequest) :
    get_key (build_payload r) "response_format" =
      (if opt_bool r.json then some (.obj [("type", .s "json_object")])
        else r.response_format) := by
  have hhead : get_key [("model", JsonVal.s r.model),
      ("messages", JsonVal.arr (r.messages.map message_to_wire)),
      ("stream", JsonVal.b (opt_bool r.stream))] "response_format" = none := by
    rw [get_key_cons_ne _ _ _ _ (by decide), get_key_cons_ne _ _ _ _ (by decide),
      get_key_cons_ne _ _ _ _ (by decide)]
    rfl
  by_cases hj : opt_bool r.json <;> cases hrf : r.response_format <;>
    simp only [build_payload, get_key_append, hhead, hrf] <;>
    simp [get_key_opt_field_ne, get_key_cons_self, get_key_nil, hj]

theorem c4_payload_amended (r : ChatRequest) :
    has_key (build_payload r) "temperature" = r.temperature.isSome
    ∧ has_key (build_payload r) "top_p" = r.top_p.isSome
    ∧ has_key (build_payload r) "frequency_penalty" = r.frequency_penalty.isSome
    ∧ has_key (build_payload r) "presence_penalty" = r.presence_penalty.isSome
    ∧ has_key (build_payload r) "stop" = r.stop.isSome
    ∧ has_key (build_payload r) "seed" = false
    ∧ has_key (build_payload r) "tool_choice" = r.tool_choice.isSome
    ∧ has_key (build_payload r) "n" = false
    ∧ has_key (build_payload r) "logprobs" = false
    ∧ has_key (build_payload r) "top_logprobs" = false
    ∧ has_key (build_payload r) "max_tokens" = r.max_tokens.isSome
    ∧ (opt_bool r.json = true →
        get_key (build_payload r) "response_format" = some (.obj [("type", .s "json_object")]))
    ∧ (opt_bool r.json = false →
        get_key (build_payload r) "response_format" = r.response_format) := by
  refine ⟨?_, ?_, ?_, ?_, ?_, ?_, ?_, ?_, ?_, ?_, ?_, ?_, ?_⟩
  · rw [has_key_build]; simp [has_key]
  · rw [has_key_build]; simp [has_key]
  · rw [has_key_build]; simp [has_key]
  · rw [has_key_build]; simp [has_key]
  · rw [has_key_build]; simp [has_key]
  · rw [has_key_build]; simp [has_key]
  · rw [has_key_build]; simp [has_key]
  · rw [has_key_build]; simp [has_key]
  · rw [has_key_build]; simp [has_key]
  · rw [has_key_build]; simp [has_key]
  · rw [has_key_build]; simp [has_key]
  · intro hj
    rw [get_key_build_rf, hj]
    simp
  · intro hj
    rw [get_key_build_rf, hj]
    simp

/-- C4, witness: the `response_format` override under `json = true`, and
verbatim passthrough under `json = false`. -/
theorem c4_witness :
    opt_bool json_request.json = true
    ∧ get_key (build_payload json_request) "response_format"
        = some (.obj [("type", .s "json_object")])
    ∧ opt_bool base_request.json = false
    ∧ get_key (build_payload base_request) "response_format" = base_request.response_format :=
  ⟨rfl,
    (c4_payload_amended json_request).2.2.2.2.2.2.2.2.2.2.2.1 rfl,
    rfl,
    (c4_payload_amended base_request).2.2.2.2.2.2.2.2.2.2.2.2 rfl⟩

/-! ## Claim C3 — the retry phase mutates the caller's request -/

/-- C3 is a code bug (spec §4.5 step 5 says "Clone the request"): the
source line `req = request.model and request or request.copy()`
(core.py:54) only copies when `request.model` is falsy, so for every
non-empty `model` — including the default `"auto"` — `req` aliases the
caller's object and the assignments `req.model = sp.model` and
`req.stream = False` mutate it. Evaluated here: with `model = "auto"` the
caller's object ends up with the candidate's model and `stream = false`,
while with `model = ""` it is left untouched. -/
theorem c3_route_mutates_original :
    (prepare_req base_request "m1").2.model = "m1"
    ∧ (prepare_req base_request "m1").2.stream = some false
    ∧ base_request.model = "auto"
    ∧ base_request.stream = some true
    ∧ (prepare_req { base_request with model := "" } "m1").2
        = { base_request with model := "" } := by
  refine ⟨?_, ?_, rfl, rfl, ?_⟩
  · simp [prepare_req, base_request]
  · simp [prepare_req, base_request]
  · simp [prepare_req]

end QuotaPilot
